import Mathlib

set_option linter.unusedVariables false

/-!
Shallow embedding of the Landscaper dependency-ordering and phase-orchestration core:
the sibling/ancestor dependency resolver (pkg/landscaper/installations/imports/helper.go),
the execution reconcile controller, and the export constructor (whose output is pinned by
its test file). Store access is modelled as an explicit environment; the resolver's
recursion through the store is modelled with an explicit recursion-depth bound (`fuel`),
where result `none` means the bound was exhausted. All Go functions returning
`(bool, error)` are modelled as `Bool × Option String`, so an error return `(false, err)`
becomes `(false, some err)`.
-/

/-- Lifecycle phase of an Installation or Execution (spec section 3):
Init, Progressing, Completed, Failed, DeleteFailed. -/
inductive Phase where
  | Init
  | Progressing
  | Completed
  | Failed
  | DeleteFailed
deriving DecidableEq, BEq

/-- Modelled from the spec: `IsCompletedInstallationPhase` (helper outside src) classifies
`Completed` (and only `Completed`) as a satisfied dependency. -/
def IsCompletedInstallationPhase (p : Phase) : Bool := p == Phase.Completed

/-- Modelled from the spec: `IsCompletedExecutionPhase` (helper outside src), the same
classification for execution phases. -/
def IsCompletedExecutionPhase (p : Phase) : Bool := p == Phase.Completed

/-- Object reference (name plus object namespace), as lsv1alpha1.ObjectReference. -/
structure ObjectReference where
  name : String
  nspace : String
deriving DecidableEq, BEq

/-- Owner reference of a data object: kind and name of the owning object. -/
structure OwnerRef where
  kind : String
  name : String
deriving DecidableEq, BEq

/-- A declared data import of an installation (lsv1alpha1.DataImport), identified by name. -/
structure DataImport where
  name : String
deriving DecidableEq, BEq

/-- An Installation as the resolver sees it: its identity, phase, declared data
entries of `Spec.Imports.Data`, the recorded per-import status (`ImportStatus().GetData`,
mapping an import name to the recorded `SourceRef`, where a missing entry models a
`GetData` error), its parent reference, and its context name. -/
structure Installation where
  name : String
  nspace : String
  phase : Phase
  importsData : List DataImport
  importStatusData : List (String × Option ObjectReference)
  parentRef : Option ObjectReference
  instContextName : String
deriving DecidableEq

/-- The store and the data-import ownership oracle. `store` models the declarative object
store read by `kubeClient.Get`; `dataImportOwner` models `installations.GetDataImport`
(outside src), returning the owner of a data import, `none` when the data is not owned by
any object. -/
structure Env where
  store : List (ObjectReference × Installation)
  dataImportOwner : String → Installation → DataImport → Except String (Option OwnerRef)

/-- Store lookup, as `kubeClient.Get`: a missing object is an error. -/
def Env.getInst (env : Env) (ref : ObjectReference) : Except String Installation :=
  match env.store.find? (fun p => p.fst == ref) with
  | some p => Except.ok p.snd
  | none => Except.error ("installation not found: " ++ ref.name)

/-- `lsv1alpha1helper.ReferenceIsObject`: the reference denotes exactly this installation. -/
def ReferenceIsObject (ref : ObjectReference) (inst : Installation) : Bool :=
  ref.name == inst.name && ref.nspace == inst.nspace

/-- Modelled from the spec: `installations.GetParent` (outside src) resolves the parent
installation from the store; a root installation has no parent, a failing lookup is an
error. -/
def GetParent (env : Env) (inst : Installation) : Except String (Option Installation) :=
  match inst.parentRef with
  | none => Except.ok none
  | some r =>
    match env.getInst r with
    | Except.error e => Except.error e
    | Except.ok p => Except.ok (some p)

/-- Modelled from the spec: `installations.GetInstallationContextName` (outside src),
the name of the installation's context; opaque for the claims proved here. -/
def GetInstallationContextName (inst : Installation) : String := inst.instContextName

/-- `getImportSource` from helper.go: prefer the locally recorded `SourceRef` of the
recorded status (fast path); otherwise resolve the current owner of the import via the
store (`GetDataImport`), skipping owners that are not an Installation. -/
def getImportSource (env : Env) (contextName : String) (inst : Installation)
    (dataImport : DataImport) : Except String (Option ObjectReference) :=
  match inst.importStatusData.lookup dataImport.name with
  | some (some ref) => Except.ok (some ref)
  | _ =>
    match env.dataImportOwner contextName inst dataImport with
    | Except.error e => Except.error e
    | Except.ok none => Except.ok none
    | Except.ok (some owner) =>
      if owner.kind == "Installation" then
        Except.ok (some { name := owner.name, nspace := inst.nspace })
      else
        Except.ok none

/-- Outcome of resolving one data import inside the loop body of
`CheckCompletedSiblingDependents`: an aborting store error, a skipped import
(no installation source, the installation itself, or its direct parent), or a
fetched sibling installation. -/
inductive ImportCase where
  | err (e : String)
  | skip
  | sibling (sib : Installation)
deriving DecidableEq

/-- The per-import resolution steps of the loop body of `CheckCompletedSiblingDependents`
(helper.go lines 57-83), in source order: `getImportSource` (errors abort), a `nil`
source is skipped, a self reference is skipped, `GetParent` (errors abort), a parent
reference is skipped, and finally the referenced sibling is fetched from the store
(errors abort). -/
def classifyImport (env : Env) (contextName : String) (inst : Installation)
    (dataImport : DataImport) : ImportCase :=
  match getImportSource env contextName inst dataImport with
  | Except.error e => ImportCase.err e
  | Except.ok none => ImportCase.skip
  | Except.ok (some sourceRef) =>
    if ReferenceIsObject sourceRef inst then ImportCase.skip
    else
      match GetParent env inst with
      | Except.error e => ImportCase.err e
      | Except.ok parentOpt =>
        if (match parentOpt with
            | some parent => ReferenceIsObject sourceRef parent
            | none => false) then ImportCase.skip
        else
          match env.getInst sourceRef with
          | Except.error e => ImportCase.err e
          | Except.ok sib => ImportCase.sibling sib

/-- Combination of the recursive sibling check's result with the remaining loop
(helper.go lines 92-98): an error aborts with `(false, err)`, an unsatisfied recursive
check short-circuits with `(false, nil)`, otherwise the loop continues. -/
def siblingStep (recRes : Option (Bool × Option String))
    (next : Option (Bool × Option String)) : Option (Bool × Option String) :=
  match recRes with
  | none => none
  | some (_, some e) => some (false, some e)
  | some (b, none) => if b then next else some (false, none)

/-- The import loop of `CheckCompletedSiblingDependents` (helper.go lines 57-99),
parameterised by the recursive check `check` applied to a fetched sibling: an incomplete
sibling short-circuits with `(false, nil)`, a completed sibling is checked recursively. -/
def runImports (check : Installation → Option (Bool × Option String)) (env : Env)
    (contextName : String) (inst : Installation) :
    List DataImport → Option (Bool × Option String)
  | [] => some (true, none)
  | di :: rest =>
    match classifyImport env contextName inst di with
    | ImportCase.err e => some (false, some e)
    | ImportCase.skip => runImports check env contextName inst rest
    | ImportCase.sibling sib =>
      if IsCompletedInstallationPhase sib.phase then
        siblingStep (check sib) (runImports check env contextName inst rest)
      else some (false, none)

/-- Depth-bounded body of `CheckCompletedSiblingDependents` for a non-nil installation:
each recursion into a sibling consumes one unit of fuel; `none` means the depth bound was
exhausted (the Go source has no such bound and simply recurses). -/
def checkInstFuel : Nat → Env → String → Installation → Option (Bool × Option String)
  | 0, _, _, _ => none
  | Nat.succ f, env, contextName, inst =>
    runImports (fun sib => checkInstFuel f env contextName sib) env contextName inst
      inst.importsData

/-- `CheckCompletedSiblingDependents` (helper.go lines 46-102) at a recursion-depth bound:
a nil installation is vacuously satisfied; otherwise every declared data import whose
source is a sibling must be `Completed` and recursively satisfied. -/
def CheckCompletedSiblingDependents (fuel : Nat) (env : Env) (contextName : String)
    (inst : Option Installation) : Option (Bool × Option String) :=
  match inst with
  | none => some (true, none)
  | some i => checkInstFuel fuel env contextName i

/-- `CheckCompletedSiblingDependentsOfParent` (helper.go lines 20-43) at a recursion-depth
bound: a nil parent is satisfied; otherwise the parent's sibling dependents are checked
and the walk continues with the parent's parent until no parent exists. -/
def CheckCompletedSiblingDependentsOfParent :
    Nat → Env → Option Installation → Option (Bool × Option String)
  | _, _, none => some (true, none)
  | 0, _, some _ => none
  | Nat.succ fuel, env, some parent =>
    match CheckCompletedSiblingDependents fuel env (GetInstallationContextName parent)
        (some parent) with
    | none => none
    | some (_, some e) => some (false, some e)
    | some (b, none) =>
      if b then
        match GetParent env parent with
        | Except.error e => some (false, some ("unable to get parent of parent: " ++ e))
        | Except.ok none => some (true, none)
        | Except.ok (some pp) => CheckCompletedSiblingDependentsOfParent fuel env (some pp)
      else some (b, none)

/-!
Execution reconcile controller (the unnamed execution controller source file).
External collaborators (the store writer, the execution-layer operation, the event
recorder) are modelled as oracle functions in `Collab`; every controller-issued write
attempt and event emission, and every invocation of an execution-layer collaborator, is
recorded in a trace of `Eff` entries.
-/

/-- Modelled from the spec: the operation annotation key (`lsv1alpha1.OperationAnnotation`,
outside src) carrying the reconcile / force-reconcile request. -/
def OperationAnnKey : String := "landscaper.gardener.cloud/operation"

/-- Modelled from the spec: the `reconcile` operation annotation value. -/
def ReconcileOperation : String := "reconcile"

/-- Modelled from the spec: the `force-reconcile` operation annotation value. -/
def ForceReconcileOperation : String := "force-reconcile"

/-- Modelled from the spec: the ignore annotation key. -/
def IgnoreAnnKey : String := "landscaper.gardener.cloud/ignore"

/-- Modelled from the spec: the Landscaper finalizer string. -/
def LandscaperFinalizer : String := "finalizer.landscaper.gardener.cloud"

/-- Metadata of an Execution: its annotations, `Generation`, deletion marker and
finalizers. -/
structure ExecMeta where
  annotations : List (String × String)
  generation : Int
  hasDeletionTimestamp : Bool
  finalizers : List String
deriving DecidableEq

/-- A controller error (`lserrors.LsError`, built by `NewError`/`NewWrappedError`):
operation, reason and message. -/
structure LsError where
  operation : String
  reason : String
  message : String
deriving DecidableEq

/-- The persisted `Status.LastError` (`lsv1alpha1.Error`): operation, reason, message and
the first/last observation times (seconds). -/
structure StatusError where
  operation : String
  reason : String
  message : String
  firstUpdateTime : Nat
  lastUpdateTime : Nat
deriving DecidableEq

/-- The Execution status fields this controller owns: `Phase`, `ObservedGeneration` and
`LastError`. -/
structure ExecStatus where
  phase : Phase
  observedGeneration : Int
  lastError : Option StatusError
deriving DecidableEq

/-- An Execution resource: metadata plus status. -/
structure Execution where
  meta : ExecMeta
  status : ExecStatus
deriving DecidableEq

/-- Modelled from the spec: `lsv1alpha1helper.HasOperation` (outside src): the operation
annotation carries exactly the given value. -/
def HasOperation (m : ExecMeta) (op : String) : Bool :=
  m.annotations.lookup OperationAnnKey == some op

/-- Modelled from the spec: `lsv1alpha1helper.HasIgnoreAnnotation` (outside src). -/
def HasIgnoreAnn (m : ExecMeta) : Bool :=
  m.annotations.lookup IgnoreAnnKey == some "true"

/-- `kubernetes.HasFinalizer(exec, LandscaperFinalizer)`. -/
def hasLandscaperFinalizer (m : ExecMeta) : Bool :=
  m.finalizers.contains LandscaperFinalizer

/-- `controllerutil.AddFinalizer(exec, LandscaperFinalizer)`. -/
def addLandscaperFinalizer (m : ExecMeta) : ExecMeta :=
  { m with finalizers := m.finalizers ++ [LandscaperFinalizer] }

/-- Trace entries for controller-issued effects: status-write attempts, metadata-update
attempts, patch attempts, emitted events, and invocations of the execution-layer
collaborators. -/
inductive Eff where
  | statusWrite (s : ExecStatus)
  | execWrite (m : ExecMeta)
  | patchWrite (m : ExecMeta)
  | event (reason : String) (message : String)
  | callDelete
  | callReconcile
  | callDeployItemChanges
deriving DecidableEq

/-- Oracles for the external collaborators: the read/write layer (`UpdateExecution`,
`UpdateExecutionStatus`, `PatchExecution`, each returning `some err` on failure) and the
execution-layer operation (`Reconcile`, `Delete`,
`HandleDeployItemPhaseAndGenerationChanges`, each returning the execution it mutated). -/
structure Collab where
  updateExecutionStatus : Execution → Option String
  updateExecution : Execution → Option String
  patchExecution : Execution → Execution → Option String
  reconcileOp : Execution → Bool → Execution × Option LsError
  deleteOp : Execution → Bool → Execution × Option LsError
  deployItemChanges : Execution → Execution × Option String

/-- The status normalization of `HandleAnnotationsAndGeneration`:
`ObservedGeneration := Generation` and `Phase := Init`. -/
def hagNormalize (exec : Execution) : Execution :=
  { exec with status :=
      { exec.status with observedGeneration := exec.meta.generation, phase := Phase.Init } }

/-- Removal of the operation annotation (`delete(exec.Annotations, OperationAnnotation)`). -/
def removeOpAnn (exec : Execution) : Execution :=
  { exec with meta :=
      { exec.meta with
        annotations := exec.meta.annotations.filter (fun p => p.fst != OperationAnnKey) } }

/-- `HandleAnnotationsAndGeneration` (controller source lines 137-170): when a reconcile
annotation, a force-reconcile annotation or an outdated generation is observed, set
`ObservedGeneration := Generation` and `Phase := Init` and persist the status; then, only
when the plain reconcile annotation was present, remove the operation annotation and
persist the metadata. Either failed write aborts with a wrapped error. -/
def HandleAnnotationsAndGeneration (c : Collab) (exec : Execution) :
    Execution × List Eff × Option LsError :=
  let hasReconcileAnn := HasOperation exec.meta ReconcileOperation
  let hasForceAnn := HasOperation exec.meta ForceReconcileOperation
  let step1 : Execution × List Eff × Option LsError :=
    if hasReconcileAnn || hasForceAnn
        || exec.status.observedGeneration != exec.meta.generation then
      let exec1 := hagNormalize exec
      match c.updateExecutionStatus exec1 with
      | some e =>
        (exec1, [Eff.statusWrite exec1.status],
          some { operation := "HandleAnnotationsAndGeneration",
                 reason := "update execution status", message := e })
      | none => (exec1, [Eff.statusWrite exec1.status], none)
    else (exec, [], none)
  match step1 with
  | (e1, effs1, some err) => (e1, effs1, some err)
  | (e1, effs1, none) =>
    if hasReconcileAnn then
      let e2 := removeOpAnn e1
      match c.updateExecution e2 with
      | some e =>
        (e2, effs1 ++ [Eff.execWrite e2.meta],
          some { operation := "HandleAnnotationsAndGeneration",
                 reason := "update execution", message := e })
      | none => (e2, effs1 ++ [Eff.execWrite e2.meta], none)
    else (e1, effs1, none)

/-- The tail of `controller.Ensure` after annotation/generation handling and the
finalizer block (controller source lines 96-114): deletion runs `op.Delete`; an already
completed phase first lets the execution layer reconcile deploy-item phase/generation
changes and returns with no further work when the phase is still completed; otherwise
`op.Reconcile` runs. -/
def ensureRest (c : Collab) (exec : Execution) (effs : List Eff) :
    Execution × List Eff × Option LsError :=
  let forceReconcile := HasOperation exec.meta ForceReconcileOperation
  if exec.meta.hasDeletionTimestamp then
    let r := c.deleteOp exec forceReconcile
    (r.fst, effs ++ [Eff.callDelete], r.snd)
  else if IsCompletedExecutionPhase exec.status.phase then
    match c.deployItemChanges exec with
    | (e1, some err) =>
      (e1, effs ++ [Eff.callDeployItemChanges],
        some { operation := "Reconcile",
               reason := "HandleDeployItemPhaseAndGenerationChanges", message := err })
    | (e1, none) =>
      if IsCompletedExecutionPhase e1.status.phase then
        (e1, effs ++ [Eff.callDeployItemChanges], none)
      else
        let r := c.reconcileOp e1 forceReconcile
        (r.fst, effs ++ [Eff.callDeployItemChanges, Eff.callReconcile], r.snd)
  else
    let r := c.reconcileOp exec forceReconcile
    (r.fst, effs ++ [Eff.callReconcile], r.snd)

/-- `controller.Ensure` (controller source lines 84-115): annotation/generation handling,
then, for a live execution missing the Landscaper finalizer, add it and persist the
execution before any further work; a failed update aborts with the `AddFinalizer`
error. -/
def Ensure (c : Collab) (exec : Execution) : Execution × List Eff × Option LsError :=
  match HandleAnnotationsAndGeneration c exec with
  | (e1, effs1, some err) => (e1, effs1, some err)
  | (e1, effs1, none) =>
    if !e1.meta.hasDeletionTimestamp && !hasLandscaperFinalizer e1.meta then
      let e2 : Execution := { e1 with meta := addLandscaperFinalizer e1.meta }
      match c.updateExecution e2 with
      | some err =>
        (e2, effs1 ++ [Eff.execWrite e2.meta],
          some { operation := "Reconcile", reason := "AddFinalizer", message := err })
      | none => ensureRest c e2 (effs1 ++ [Eff.execWrite e2.meta])
    else ensureRest c e1 effs1

/-- `controller.removeForceReconcileAnnotation` (controller source lines 117-128): when
the force-reconcile annotation is present, remove it and patch the execution; a failed
patch emits a warning event and returns a wrapped error. -/
def removeForceReconcileAnn (c : Collab) (exec : Execution) :
    Execution × List Eff × Option LsError :=
  if HasOperation exec.meta ForceReconcileOperation then
    let e1 := removeOpAnn exec
    match c.patchExecution e1 exec with
    | some err =>
      (e1, [Eff.patchWrite e1.meta, Eff.event "RemoveForceReconcileAnnotation" err],
        some { operation := "Reconcile", reason := "RemoveForceReconcileAnnotation",
               message := err })
    | none => (e1, [Eff.patchWrite e1.meta], none)
  else (exec, [], none)

/-- The error threshold used by `handleError`: five minutes, in seconds. -/
def fiveMinutes : Nat := 300

/-- Modelled from the spec: `lserrors.TryUpdateLsError` (outside src) as the pure merge
function `(priorError, newError, observedAt) → mergedError`: a repeated identical error
keeps its first observation time, any other error starts fresh at `now`. -/
def TryUpdateLsError (last : Option StatusError) (err : LsError) (now : Nat) : StatusError :=
  match last with
  | some l =>
    if l.operation == err.operation && l.reason == err.reason
        && l.message == err.message then
      { l with lastUpdateTime := now }
    else
      { operation := err.operation, reason := err.reason, message := err.message,
        firstUpdateTime := now, lastUpdateTime := now }
  | none =>
    { operation := err.operation, reason := err.reason, message := err.message,
      firstUpdateTime := now, lastUpdateTime := now }

/-- Modelled from the spec: `lserrors.GetPhaseForLastError` (outside src) as the pure
function `(phase, mergedError, threshold, now) → nextPhase`: with no recorded error the
phase stands; an error that has persisted past the threshold escalates to `Failed`, a
younger error leaves the phase unchanged. -/
def GetPhaseForLastError (phase : Phase) (lastError : Option StatusError) (d : Nat)
    (now : Nat) : Phase :=
  match lastError with
  | none => phase
  | some l => if d < now - l.firstUpdateTime then Phase.Failed else phase

/-- The status transformation inside `handleError` (controller source lines 183-192):
merge a present error into `LastError`, then recompute the phase from the recorded
error against the five-minute threshold. -/
def handleErrorStatus (status : ExecStatus) (err : Option LsError) (now : Nat) :
    ExecStatus :=
  let st1 : ExecStatus :=
    match err with
    | some e => { status with lastError := some (TryUpdateLsError status.lastError e now) }
    | none => status
  { st1 with phase := GetPhaseForLastError st1.phase st1.lastError fiveMinutes now }

/-- The error returned by `handleError`: the invocation's `LsError` or a status-write
client error. -/
inductive RetErr where
  | ls (e : LsError)
  | client (e : String)
deriving DecidableEq

/-- `handleError` (controller source lines 172-211): a successful deletion returns
immediately; otherwise the error is merged into `Status.LastError`, the phase is
recomputed against the five-minute threshold, a warning event is emitted whenever
`LastError` is recorded, and the status is written back only when it changed — a failed
write is returned in place of the invocation's error. -/
def handleError (c : Collab) (now : Nat) (err : Option LsError) (oldExec exec : Execution)
    (isDelete : Bool) : Execution × List Eff × Option RetErr :=
  if isDelete && err.isNone then (exec, [], none)
  else
    let e1 : Execution := { exec with status := handleErrorStatus exec.status err now }
    let evs : List Eff :=
      match e1.status.lastError with
      | some le => [Eff.event le.reason le.message]
      | none => []
    if e1.status = oldExec.status then (e1, evs, err.map RetErr.ls)
    else
      match c.updateExecutionStatus e1 with
      | some ue => (e1, evs ++ [Eff.statusWrite e1.status], some (RetErr.client ue))
      | none => (e1, evs ++ [Eff.statusWrite e1.status], err.map RetErr.ls)

/-- `controller.Reconcile` (controller source lines 51-82), starting from the fetched
execution: skip entirely when the ignore annotation is set on a completed execution;
otherwise run `Ensure`, then remove the force-reconcile annotation (its error only
reported when `Ensure` succeeded), and finish with `handleError`. -/
def ControllerReconcile (c : Collab) (now : Nat) (exec : Execution) :
    Execution × List Eff × Option RetErr :=
  if HasIgnoreAnn exec.meta && IsCompletedExecutionPhase exec.status.phase then
    (exec, [], none)
  else
    let oldExec := exec
    let r1 := Ensure c exec
    let r2 := removeForceReconcileAnn c r1.fst
    let lsError : Option LsError :=
      match r1.snd.snd with
      | some e => some e
      | none => r2.snd.snd
    let isDelete := r2.fst.meta.hasDeletionTimestamp
    let r3 := handleError c now lsError oldExec r2.fst isDelete
    (r3.fst, r1.snd.fst ++ r2.snd.fst ++ r3.snd.fst, r3.snd.snd)

/-!
Export constructor. The constructor's own source file is not part of src; only its test
file (outdated_test.go, `exports_test` section) is. The algorithm is modelled from the
spec (section 4.2), with one deviation forced by the tests: every produced DataObject
carries `SourceType = ExportDataObjectSourceType` — the tests assert this same source
type for execution-produced and sibling-produced objects alike, so the model does not
attribute a distinct source type per producer. The producing sibling is recorded in
`sourceRef`.
-/

/-- DataObject source types of lsv1alpha1 (`export` / `import`). -/
inductive DataObjectSourceType where
  | exportSource
  | importSource
deriving DecidableEq

/-- The `lsv1alpha1.ExportDataObjectSourceType` constant. -/
def ExportDataObjectSourceType : DataObjectSourceType := DataObjectSourceType.exportSource

/-- A constructed export DataObject: key, value, source type and the producing
installation when the value came from a sibling export. -/
structure ExportDataObject where
  key : String
  data : String
  sourceType : DataObjectSourceType
  sourceRef : Option ObjectReference
deriving DecidableEq

/-- A sibling installation as the export constructor sees it: identity, phase and its
currently exported key/value pairs. -/
structure SiblingExports where
  ref : ObjectReference
  phase : Phase
  exported : List (String × String)
deriving DecidableEq

/-- Inputs of one `Construct` invocation: the installation's own execution output and the
sibling installations of its context. -/
structure ConstructEnv where
  executionOutput : List (String × String)
  siblings : List SiblingExports
deriving DecidableEq

/-- Modelled from the spec: `exports.Constructor.Construct` (source file not in src;
output shape pinned by the exports_test section of outdated_test.go). For each declared
export key, in declaration order: a key produced by the installation's own execution wins
(local precedence); otherwise the first completed sibling exporting a matching key
supplies the value, with `sourceRef` naming that sibling; a key with no resolvable source
is a hard error. -/
def Construct (env : ConstructEnv) : List String → Except String (List ExportDataObject)
  | [] => Except.ok []
  | k :: rest =>
    match env.executionOutput.lookup k with
    | some v =>
      match Construct env rest with
      | Except.error e => Except.error e
      | Except.ok objs =>
        Except.ok ({ key := k, data := v, sourceType := ExportDataObjectSourceType,
                     sourceRef := none } :: objs)
    | none =>
      match env.siblings.find?
          (fun s => IsCompletedInstallationPhase s.phase && (s.exported.lookup k).isSome) with
      | some s =>
        match s.exported.lookup k with
        | some v =>
          match Construct env rest with
          | Except.error e => Except.error e
          | Except.ok objs =>
            Except.ok ({ key := k, data := v, sourceType := ExportDataObjectSourceType,
                         sourceRef := some s.ref } :: objs)
        | none => Except.error ("inconsistent sibling export for key " ++ k)
      | none => Except.error ("no export source found for key " ++ k)

/-!
Concrete stores, executions and collaborator oracles used to instantiate the theorems
below on closed inputs.
-/

/-- A data-import ownership oracle that never finds an owning installation (all sources
below are resolved through the recorded import status instead). -/
def noOwner : String → Installation → DataImport → Except String (Option OwnerRef) :=
  fun _ _ _ => Except.ok none

def wRefA : ObjectReference := { name := "a", nspace := "test" }

def wRefB : ObjectReference := { name := "b", nspace := "test" }

def wRefC : ObjectReference := { name := "c", nspace := "test" }

/-- Sibling `b`, still progressing, no imports of its own. -/
def wInstB : Installation :=
  { name := "b", nspace := "test", phase := Phase.Progressing, importsData := [],
    importStatusData := [], parentRef := none, instContextName := "ctx" }

/-- Installation `a` importing `d1` from sibling `b` via its recorded import status. -/
def wInstA : Installation :=
  { name := "a", nspace := "test", phase := Phase.Init,
    importsData := [{ name := "d1" }],
    importStatusData := [("d1", some wRefB)], parentRef := none, instContextName := "ctx" }

/-- Installation whose recorded import source points at an object missing from the
store, so the sibling fetch fails. -/
def wInstAErr : Installation :=
  { name := "a2", nspace := "test", phase := Phase.Init,
    importsData := [{ name := "d1" }],
    importStatusData := [("d1", some { name := "missing", nspace := "test" })],
    parentRef := none, instContextName := "ctx" }

def wEnv : Env :=
  { store := [(wRefA, wInstA), (wRefB, wInstB)], dataImportOwner := noOwner }

/-- Sibling `c`, still progressing. -/
def tInstC : Installation :=
  { name := "c", nspace := "test", phase := Phase.Progressing, importsData := [],
    importStatusData := [], parentRef := none, instContextName := "ctx" }

/-- Sibling `b`, completed, itself importing `d2` from the incomplete sibling `c`. -/
def tInstB : Installation :=
  { name := "b", nspace := "test", phase := Phase.Completed,
    importsData := [{ name := "d2" }],
    importStatusData := [("d2", some wRefC)], parentRef := none, instContextName := "ctx" }

/-- Installation `a` importing `d1` from the completed sibling `b`. -/
def tInstA : Installation :=
  { name := "a", nspace := "test", phase := Phase.Init,
    importsData := [{ name := "d1" }],
    importStatusData := [("d1", some wRefB)], parentRef := none, instContextName := "ctx" }

def tEnv : Env :=
  { store := [(wRefA, tInstA), (wRefB, tInstB), (wRefC, tInstC)],
    dataImportOwner := noOwner }

/-- Sibling `b`, completed, with no imports of its own. -/
def gInstB : Installation :=
  { name := "b", nspace := "test", phase := Phase.Completed, importsData := [],
    importStatusData := [], parentRef := none, instContextName := "ctx" }

/-- Installation `a` importing `d1` from the completed, dependency-free sibling `b`. -/
def gInstA : Installation :=
  { name := "a", nspace := "test", phase := Phase.Init,
    importsData := [{ name := "d1" }],
    importStatusData := [("d1", some wRefB)], parentRef := none, instContextName := "ctx" }

def gEnv : Env :=
  { store := [(wRefA, gInstA), (wRefB, gInstB)], dataImportOwner := noOwner }

def cycRefA : ObjectReference := { name := "ca", nspace := "test" }

def cycRefB : ObjectReference := { name := "cb", nspace := "test" }

/-- One half of a malformed store: a completed installation importing from `cb`. -/
def cycA : Installation :=
  { name := "ca", nspace := "test", phase := Phase.Completed,
    importsData := [{ name := "x" }],
    importStatusData := [("x", some cycRefB)], parentRef := none,
    instContextName := "cctx" }

/-- The other half of the cycle: a completed installation importing from `ca`. -/
def cycB : Installation :=
  { name := "cb", nspace := "test", phase := Phase.Completed,
    importsData := [{ name := "y" }],
    importStatusData := [("y", some cycRefA)], parentRef := none,
    instContextName := "cctx" }

/-- A store whose sibling import sources form a two-cycle of completed installations. -/
def cycEnv : Env :=
  { store := [(cycRefA, cycA), (cycRefB, cycB)], dataImportOwner := noOwner }

/-- The sibling check terminates on this input: some recursion-depth bound suffices. -/
def checkSiblingTerminates (env : Env) (contextName : String) (inst : Installation) :
    Prop :=
  ∃ fuel, (CheckCompletedSiblingDependents fuel env contextName (some inst)).isSome

/-- The sibling check exhausts every recursion-depth bound on this input, i.e. the
unbounded Go recursion never returns. -/
def checkSiblingDiverges (env : Env) (contextName : String) (inst : Installation) :
    Prop :=
  ∀ fuel, CheckCompletedSiblingDependents fuel env contextName (some inst) = none

/-- The ancestor check exhausts every recursion-depth bound on this input. -/
def checkParentDiverges (env : Env) (inst : Installation) : Prop :=
  ∀ fuel, CheckCompletedSiblingDependentsOfParent fuel env (some inst) = none

/-- Collaborators whose writes all succeed and whose execution-layer calls leave the
execution unchanged and report no error. -/
def collabOK : Collab :=
  { updateExecutionStatus := fun _ => none,
    updateExecution := fun _ => none,
    patchExecution := fun _ _ => none,
    reconcileOp := fun e _ => (e, none),
    deleteOp := fun e _ => (e, none),
    deployItemChanges := fun e => (e, none) }

/-- Like `collabOK`, but `UpdateExecution` (metadata writes) fails. -/
def collabFailUpd : Collab :=
  { collabOK with updateExecution := fun _ => some "upd-fail" }

/-- Like `collabOK`, but `UpdateExecutionStatus` fails. -/
def collabFailStatus : Collab :=
  { collabOK with updateExecutionStatus := fun _ => some "status-fail" }

/-- An execution carrying the plain reconcile annotation with an outdated generation. -/
def wExecRec : Execution :=
  { meta := { annotations := [(OperationAnnKey, ReconcileOperation)], generation := 2,
              hasDeletionTimestamp := false, finalizers := [LandscaperFinalizer] },
    status := { phase := Phase.Completed, observedGeneration := 1, lastError := none } }

/-- An execution carrying the force-reconcile annotation. -/
def wExecForce : Execution :=
  { meta := { annotations := [(OperationAnnKey, ForceReconcileOperation)], generation := 3,
              hasDeletionTimestamp := false, finalizers := [LandscaperFinalizer] },
    status := { phase := Phase.Completed, observedGeneration := 3, lastError := none } }

/-- A progressing execution with no recorded error. -/
def wExec5a : Execution :=
  { meta := { annotations := [], generation := 1, hasDeletionTimestamp := false,
              finalizers := [LandscaperFinalizer] },
    status := { phase := Phase.Progressing, observedGeneration := 1, lastError := none } }

/-- The error produced by the main reconcile in the backoff scenarios. -/
def wErr5 : LsError := { operation := "Op", reason := "Rsn", message := "Msg" }

/-- A progressing execution whose recorded `LastError` matches `wErr5` and was first
observed at time 0. -/
def wExec5b : Execution :=
  { meta := { annotations := [], generation := 1, hasDeletionTimestamp := false,
              finalizers := [LandscaperFinalizer] },
    status := { phase := Phase.Progressing, observedGeneration := 1,
                lastError := some { operation := "Op", reason := "Rsn", message := "Msg",
                                    firstUpdateTime := 0, lastUpdateTime := 0 } } }

/-- A completed, annotation-free, finalized execution with a current generation and no
recorded error: nothing to do. -/
def wExec6 : Execution :=
  { meta := { annotations := [], generation := 3, hasDeletionTimestamp := false,
              finalizers := [LandscaperFinalizer] },
    status := { phase := Phase.Completed, observedGeneration := 3, lastError := none } }

/-- Like `wExec6`, but a stale `LastError` (first observed at time 9) is still
recorded. -/
def wExecStale : Execution :=
  { meta := { annotations := [], generation := 3, hasDeletionTimestamp := false,
              finalizers := [LandscaperFinalizer] },
    status := { phase := Phase.Completed, observedGeneration := 3,
                lastError := some { operation := "Op", reason := "Rsn", message := "Msg",
                                    firstUpdateTime := 9, lastUpdateTime := 9 } } }

/-- A live execution with a current generation, no annotations and no finalizer yet. -/
def wExec9 : Execution :=
  { meta := { annotations := [], generation := 1, hasDeletionTimestamp := false,
              finalizers := [] },
    status := { phase := Phase.Init, observedGeneration := 1, lastError := none } }

/-- The pre-invocation snapshot in the status-write-failure scenario. -/
def wExec10 : Execution :=
  { meta := { annotations := [], generation := 1, hasDeletionTimestamp := false,
              finalizers := [LandscaperFinalizer] },
    status := { phase := Phase.Progressing, observedGeneration := 1, lastError := none } }

/-- The sibling `b` of the export scenario, completed and exporting `root.z`. -/
def wSibB : SiblingExports :=
  { ref := { name := "b", nspace := "test" }, phase := Phase.Completed,
    exported := [("root.z", "val-b")] }

/-- The export scenario of the claim: the execution produced `val-exec` for `root.y`,
and completed sibling `b` produced `val-b` for `root.z`. -/
def constructEnv7 : ConstructEnv :=
  { executionOutput := [("root.y", "val-exec")], siblings := [wSibB] }

/-!
Theorems. First the unfolding equations and helper lemmas for the resolver, then the
claims.
-/

lemma runImports_cons (check : Installation → Option (Bool × Option String)) (env : Env)
    (contextName : String) (inst : Installation) (di : DataImport)
    (rest : List DataImport) :
    runImports check env contextName inst (di :: rest) =
    match classifyImport env contextName inst di with
    | ImportCase.err e => some (false, some e)
    | ImportCase.skip => runImports check env contextName inst rest
    | ImportCase.sibling sib =>
      if IsCompletedInstallationPhase sib.phase then
        siblingStep (check sib) (runImports check env contextName inst rest)
      else some (false, none) := rfl

lemma runImports_err {env : Env} {contextName : String} {inst : Installation}
    {di : DataImport} {e : String}
    (check : Installation → Option (Bool × Option String)) (rest : List DataImport)
    (h : classifyImport env contextName inst di = ImportCase.err e) :
    runImports check env contextName inst (di :: rest) = some (false, some e) := by
  rw [runImports_cons, h]

lemma runImports_skip {env : Env} {contextName : String} {inst : Installation}
    {di : DataImport}
    (check : Installation → Option (Bool × Option String)) (rest : List DataImport)
    (h : classifyImport env contextName inst di = ImportCase.skip) :
    runImports check env contextName inst (di :: rest) =
      runImports check env contextName inst rest := by
  rw [runImports_cons, h]

lemma runImports_sib {env : Env} {contextName : String} {inst : Installation}
    {di : DataImport} {sib : Installation}
    (check : Installation → Option (Bool × Option String)) (rest : List DataImport)
    (h : classifyImport env contextName inst di = ImportCase.sibling sib) :
    runImports check env contextName inst (di :: rest) =
      if IsCompletedInstallationPhase sib.phase then
        siblingStep (check sib) (runImports check env contextName inst rest)
      else some (false, none) := by
  rw [runImports_cons, h]

lemma runImports_skip_prefix (check : Installation → Option (Bool × Option String))
    (env : Env) (contextName : String) (inst : Installation) (pre l : List DataImport)
    (h : ∀ d ∈ pre, classifyImport env contextName inst d = ImportCase.skip) :
    runImports check env contextName inst (pre ++ l) =
      runImports check env contextName inst l := by
  induction pre with
  | nil => rfl
  | cons d pre ih =>
    rw [List.cons_append, runImports_skip check (pre ++ l) (h d (by simp))]
    exact ih (fun d' hd' => h d' (by simp [hd']))

lemma ccsd_checkInst (fuel : Nat) (env : Env) (contextName : String)
    (inst : Installation) :
    CheckCompletedSiblingDependents fuel env contextName (some inst) =
      checkInstFuel fuel env contextName inst := rfl

lemma ccsd_succ (fuel : Nat) (env : Env) (contextName : String) (inst : Installation) :
    CheckCompletedSiblingDependents (fuel+1) env contextName (some inst) =
      runImports (fun sib => checkInstFuel fuel env contextName sib) env contextName inst
        inst.importsData := rfl

lemma siblingStep_true {r next : Option (Bool × Option String)}
    (h : siblingStep r next = some (true, none)) :
    r = some (true, none) ∧ next = some (true, none) := by
  rcases r with _ | ⟨b, _ | e⟩
  · simp [siblingStep] at h
  · cases b
    · simp [siblingStep] at h
    · exact ⟨rfl, by simpa [siblingStep] using h⟩
  · simp [siblingStep] at h

lemma runImports_true_sound (check : Installation → Option (Bool × Option String))
    (env : Env) (contextName : String) (inst : Installation) :
    ∀ l, runImports check env contextName inst l = some (true, none) →
      ∀ di ∈ l, ∀ sib, classifyImport env contextName inst di = ImportCase.sibling sib →
        IsCompletedInstallationPhase sib.phase = true ∧ check sib = some (true, none) := by
  intro l
  induction l with
  | nil => intro _ di hdi; simp at hdi
  | cons d rest ih =>
    intro hrun di hdi sib hcl
    rcases List.mem_cons.mp hdi with hdi | hdi
    · subst hdi
      rw [runImports_sib check rest hcl] at hrun
      by_cases hph : IsCompletedInstallationPhase sib.phase = true
      · rw [if_pos hph] at hrun
        exact ⟨hph, (siblingStep_true hrun).1⟩
      · rw [if_neg hph] at hrun
        simp at hrun
    · cases hcld : classifyImport env contextName inst d with
      | err e => rw [runImports_err check rest hcld] at hrun; simp at hrun
      | skip =>
        rw [runImports_skip check rest hcld] at hrun
        exact ih hrun di hdi sib hcl
      | sibling s =>
        rw [runImports_sib check rest hcld] at hrun
        by_cases hph : IsCompletedInstallationPhase s.phase = true
        · rw [if_pos hph] at hrun
          exact ih (siblingStep_true hrun).2 di hdi sib hcl
        · rw [if_neg hph] at hrun
          simp at hrun

/-- C1: for every data import of an installation whose resolved source is a sibling
installation (neither the installation itself nor its direct parent), reached after any
prefix of skipped imports, an incomplete sibling phase makes
`CheckCompletedSiblingDependents` return `(false, nil)` immediately, regardless of the
remaining imports and of the recursion budget; and a store lookup error while resolving
that import aborts with `(false, that error)`. -/
theorem check_sibling_short_circuit (fuel : Nat) (env : Env) (contextName : String)
    (inst : Installation) (pre rest : List DataImport) (di : DataImport)
    (sib : Installation) (e : String)
    (hsplit : inst.importsData = pre ++ di :: rest)
    (hskip : ∀ d ∈ pre, classifyImport env contextName inst d = ImportCase.skip) :
    (classifyImport env contextName inst di = ImportCase.sibling sib →
      IsCompletedInstallationPhase sib.phase = false →
      CheckCompletedSiblingDependents (fuel+1) env contextName (some inst) =
        some (false, none)) ∧
    (classifyImport env contextName inst di = ImportCase.err e →
      CheckCompletedSiblingDependents (fuel+1) env contextName (some inst) =
        some (false, some e)) := by
  constructor
  · intro hsib hph
    rw [ccsd_succ, hsplit,
      runImports_skip_prefix _ env contextName inst pre _ hskip,
      runImports_sib _ rest hsib, if_neg (by simp [hph])]
  · intro herr
    rw [ccsd_succ, hsplit,
      runImports_skip_prefix _ env contextName inst pre _ hskip,
      runImports_err _ rest herr]

/-- Witness for C1: in the concrete store `wEnv`, installation `a` imports from the
progressing sibling `b`, so the check short-circuits with `(false, nil)`; with a source
reference pointing at a missing object, the check aborts with the lookup error. -/
theorem check_sibling_short_circuit_witness :
    CheckCompletedSiblingDependents 1 wEnv "ctx" (some wInstA) = some (false, none) ∧
    CheckCompletedSiblingDependents 1 wEnv "ctx" (some wInstAErr) =
      some (false, some "installation not found: missing") := by
  constructor
  · exact (check_sibling_short_circuit 0 wEnv "ctx" wInstA [] [] { name := "d1" } wInstB
      "" rfl (by simp)).1 (by decide) (by decide)
  · exact (check_sibling_short_circuit 0 wEnv "ctx" wInstAErr [] [] { name := "d1" }
      wInstB "installation not found: missing" rfl (by simp)).2 (by decide)

/-- C2: `CheckCompletedSiblingDependents` returns `(true, nil)` only if every data import
resolving to a sibling names a `Completed` sibling whose own sibling dependencies are in
turn satisfied by the recursive check (transitive closure); and as soon as the recursive
check of a completed sibling reports unsatisfied, the whole check returns `(false, nil)`. -/
theorem check_sibling_transitive (fuel : Nat) (env : Env) (contextName : String)
    (inst : Installation) :
    (CheckCompletedSiblingDependents (fuel+1) env contextName (some inst) =
        some (true, none) →
      ∀ di ∈ inst.importsData, ∀ sib,
        classifyImport env contextName inst di = ImportCase.sibling sib →
        IsCompletedInstallationPhase sib.phase = true ∧
        CheckCompletedSiblingDependents fuel env contextName (some sib) =
          some (true, none)) ∧
    (∀ (pre rest : List DataImport) (di : DataImport) (sib : Installation),
      inst.importsData = pre ++ di :: rest →
      (∀ d ∈ pre, classifyImport env contextName inst d = ImportCase.skip) →
      classifyImport env contextName inst di = ImportCase.sibling sib →
      IsCompletedInstallationPhase sib.phase = true →
      CheckCompletedSiblingDependents fuel env contextName (some sib) =
        some (false, none) →
      CheckCompletedSiblingDependents (fuel+1) env contextName (some inst) =
        some (false, none)) := by
  constructor
  · intro hrun di hdi sib hcl
    rw [ccsd_succ] at hrun
    have := runImports_true_sound _ env contextName inst inst.importsData hrun di hdi sib
      hcl
    exact ⟨this.1, this.2⟩
  · intro pre rest di sib hsplit hskip hcl hph hrec
    rw [ccsd_checkInst] at hrec
    rw [ccsd_succ, hsplit,
      runImports_skip_prefix _ env contextName inst pre _ hskip,
      runImports_sib _ rest hcl, if_pos hph]
    simp [siblingStep, hrec]

/-- Witness for C2: in `gEnv` the completed, dependency-free sibling `b` satisfies the
recursive check, and in `tEnv` the completed sibling `b` itself depends on the
progressing sibling `c`, so the recursive check fails and the whole check reports
`(false, nil)`. -/
theorem check_sibling_transitive_witness :
    (IsCompletedInstallationPhase gInstB.phase = true ∧
      CheckCompletedSiblingDependents 1 gEnv "ctx" (some gInstB) = some (true, none)) ∧
    CheckCompletedSiblingDependents 2 tEnv "ctx" (some tInstA) = some (false, none) := by
  constructor
  · exact (check_sibling_transitive 1 gEnv "ctx" gInstA).1 (by decide) { name := "d1" }
      (by simp [gInstA]) gInstB (by decide)
  · exact (check_sibling_transitive 1 tEnv "ctx" tInstA).2 [] [] { name := "d1" } tInstB
      rfl (by simp) (by decide) (by decide) (by decide)

lemma ccsdop_none (fuel : Nat) (env : Env) :
    CheckCompletedSiblingDependentsOfParent fuel env none = some (true, none) := by
  cases fuel <;> rfl

lemma ccsdop_succ (fuel : Nat) (env : Env) (parent : Installation) :
    CheckCompletedSiblingDependentsOfParent (fuel+1) env (some parent) =
    match CheckCompletedSiblingDependents fuel env (GetInstallationContextName parent)
        (some parent) with
    | none => none
    | some (_, some e) => some (false, some e)
    | some (b, none) =>
      if b then
        match GetParent env parent with
        | Except.error e => some (false, some ("unable to get parent of parent: " ++ e))
        | Except.ok none => some (true, none)
        | Except.ok (some pp) => CheckCompletedSiblingDependentsOfParent fuel env (some pp)
      else some (b, none) := rfl

/-- C3: `CheckCompletedSiblingDependentsOfParent` on a nil parent returns `(true, nil)`;
on a parent it returns `(true, nil)` exactly when the parent's own sibling dependents are
satisfied and the walk over the parent's parent (when one exists) is satisfied as well,
and an unsatisfied sibling dependency at the current ancestor level propagates upward as
`(false, nil)`. -/
theorem check_parent_ancestors (fuel : Nat) (env : Env) (parent : Installation) :
    CheckCompletedSiblingDependentsOfParent fuel env none = some (true, none) ∧
    (CheckCompletedSiblingDependentsOfParent (fuel+1) env (some parent) =
        some (true, none) ↔
      CheckCompletedSiblingDependents fuel env (GetInstallationContextName parent)
          (some parent) = some (true, none) ∧
      (GetParent env parent = Except.ok none ∨
        ∃ pp, GetParent env parent = Except.ok (some pp) ∧
          CheckCompletedSiblingDependentsOfParent fuel env (some pp) =
            some (true, none))) ∧
    (CheckCompletedSiblingDependents fuel env (GetInstallationContextName parent)
        (some parent) = some (false, none) →
      CheckCompletedSiblingDependentsOfParent (fuel+1) env (some parent) =
        some (false, none)) := by
  refine ⟨ccsdop_none fuel env, ?_, ?_⟩
  · rw [ccsdop_succ]
    rcases hs : CheckCompletedSiblingDependents fuel env
        (GetInstallationContextName parent) (some parent) with _ | ⟨b, _ | e⟩
    · simp
    · cases b
      · simp
      · rcases hp : GetParent env parent with e | po
        · simp [hp]
        · rcases po with _ | pp
          · simp [hp]
          · simp [hp]
    · simp
  · intro h
    rw [ccsdop_succ, h]
    simp

/-- Witness for C3: applying the theorem at the concrete store `wEnv` yields the
nil-parent base case. -/
theorem check_parent_ancestors_witness :
    CheckCompletedSiblingDependentsOfParent 0 wEnv none = some (true, none) :=
  (check_parent_ancestors 0 wEnv wInstA).1

lemma checkInstFuel_succ (fuel : Nat) (env : Env) (contextName : String)
    (inst : Installation) :
    checkInstFuel (fuel+1) env contextName inst =
      runImports (fun sib => checkInstFuel fuel env contextName sib) env contextName inst
        inst.importsData := rfl

lemma cyc_none : ∀ fuel : Nat,
    checkInstFuel fuel cycEnv "cctx" cycA = none ∧
    checkInstFuel fuel cycEnv "cctx" cycB = none := by
  intro fuel
  induction fuel with
  | zero => exact ⟨rfl, rfl⟩
  | succ f ih =>
    have hA : classifyImport cycEnv "cctx" cycA { name := "x" } =
        ImportCase.sibling cycB := by decide
    have hB : classifyImport cycEnv "cctx" cycB { name := "y" } =
        ImportCase.sibling cycA := by decide
    constructor
    · rw [checkInstFuel_succ,
        show cycA.importsData = [{ name := "x" }] from rfl,
        runImports_sib _ [] hA, if_pos (by decide)]
      simp [siblingStep, ih.2]
    · rw [checkInstFuel_succ,
        show cycB.importsData = [{ name := "y" }] from rfl,
        runImports_sib _ [] hB, if_pos (by decide)]
      simp [siblingStep, ih.1]

/-- Counterexample to C8: on the concrete store `cycEnv`, whose two completed sibling
installations import from each other, `CheckCompletedSiblingDependents` exhausts every
recursion-depth bound — the Go source contains no visited-set and no recursion bound, so
on this store the traversal does not terminate. -/
theorem cycle_guard_counterexample : ¬ checkSiblingTerminates cycEnv "cctx" cycA := by
  rintro ⟨fuel, hf⟩
  rw [ccsd_checkInst, (cyc_none fuel).1] at hf
  simp at hf

/-- C8, amended: `CheckCompletedSiblingDependents` and
`CheckCompletedSiblingDependentsOfParent` contain no visited-set and no recursion bound;
on a store whose sibling import sources form a cycle of completed installations, both
traversals recurse unboundedly (every recursion-depth bound of the model is exhausted),
so termination holds only on stores whose reachable import-source graph is acyclic. -/
theorem cycle_guard_amended :
    checkSiblingDiverges cycEnv "cctx" cycA ∧ checkSiblingDiverges cycEnv "cctx" cycB ∧
    checkParentDiverges cycEnv cycA := by
  refine ⟨fun fuel => ?_, fun fuel => ?_, fun fuel => ?_⟩
  · rw [ccsd_checkInst]; exact (cyc_none fuel).1
  · rw [ccsd_checkInst]; exact (cyc_none fuel).2
  · cases fuel with
    | zero => rfl
    | succ f =>
      rw [ccsdop_succ, ccsd_checkInst,
        show GetInstallationContextName cycA = "cctx" from rfl, (cyc_none f).1]

lemma lookup_filter_ne (l : List (String × String)) (k : String) :
    (l.filter (fun p => p.fst != k)).lookup k = none := by
  induction l with
  | nil => rfl
  | cons p l ih =>
    rw [List.filter_cons]
    by_cases h : p.fst = k
    · simp [h, ih]
    · have hk : (k == p.fst) = false := beq_eq_false_iff_ne.mpr (Ne.symm h)
      simp [List.lookup, h, hk, ih]

lemma force_not_reconcile {m : ExecMeta}
    (h : HasOperation m ForceReconcileOperation = true) :
    HasOperation m ReconcileOperation = false := by
  unfold HasOperation at h ⊢
  rcases hl : List.lookup OperationAnnKey m.annotations with _ | v
  · rw [hl] at h
    simp at h
  · rw [hl] at h
    have hv : v = ForceReconcileOperation := by simpa using h
    subst hv
    decide

lemma hag_skip (c : Collab) (exec : Execution)
    (hrec : HasOperation exec.meta ReconcileOperation = false)
    (hforce : HasOperation exec.meta ForceReconcileOperation = false)
    (hgen : exec.status.observedGeneration = exec.meta.generation) :
    HandleAnnotationsAndGeneration c exec = (exec, [], none) := by
  simp [HandleAnnotationsAndGeneration, hrec, hforce, hgen]

lemma hag_triggered (c : Collab) (exec : Execution)
    (htrig : (HasOperation exec.meta ReconcileOperation
        || HasOperation exec.meta ForceReconcileOperation
        || exec.status.observedGeneration != exec.meta.generation) = true)
    (hw : c.updateExecutionStatus (hagNormalize exec) = none) :
    HandleAnnotationsAndGeneration c exec =
      if HasOperation exec.meta ReconcileOperation then
        (removeOpAnn (hagNormalize exec),
          [Eff.statusWrite (hagNormalize exec).status,
            Eff.execWrite (removeOpAnn (hagNormalize exec)).meta],
          match c.updateExecution (removeOpAnn (hagNormalize exec)) with
          | some e => some { operation := "HandleAnnotationsAndGeneration",
                             reason := "update execution", message := e }
          | none => none)
      else (hagNormalize exec, [Eff.statusWrite (hagNormalize exec).status], none) := by
  by_cases hrec : HasOperation exec.meta ReconcileOperation = true
  · cases hupd : c.updateExecution (removeOpAnn (hagNormalize exec)) with
    | none => simp [HandleAnnotationsAndGeneration, htrig, hw, hrec, hupd]
    | some e => simp [HandleAnnotationsAndGeneration, htrig, hw, hrec, hupd]
  · have hrec' : HasOperation exec.meta ReconcileOperation = false := by
      simpa using hrec
    have hcond : HasOperation exec.meta ForceReconcileOperation = true ∨
        ¬ exec.status.observedGeneration = exec.meta.generation := by
      rw [hrec'] at htrig
      simpa using htrig
    simp [HandleAnnotationsAndGeneration, hw, hrec', if_pos hcond]

/-- C4: whenever a reconcile annotation, a force-reconcile annotation or an outdated
generation is observed and the status write succeeds, `HandleAnnotationsAndGeneration`
leaves the execution with `ObservedGeneration = Generation` and `Phase = Init` and has
recorded the status write; only the plain reconcile annotation is removed — with the
force-reconcile annotation present the metadata is left untouched — and the
force-reconcile annotation is removed separately by `removeForceReconcileAnn`. -/
theorem handle_annotations_normalization (c : Collab) (exec : Execution)
    (htrig : (HasOperation exec.meta ReconcileOperation
        || HasOperation exec.meta ForceReconcileOperation
        || exec.status.observedGeneration != exec.meta.generation) = true)
    (hw : c.updateExecutionStatus (hagNormalize exec) = none) :
    ((HandleAnnotationsAndGeneration c exec).fst.status.observedGeneration =
        exec.meta.generation ∧
      (HandleAnnotationsAndGeneration c exec).fst.status.phase = Phase.Init ∧
      Eff.statusWrite (hagNormalize exec).status ∈
        (HandleAnnotationsAndGeneration c exec).snd.fst) ∧
    (HasOperation exec.meta ForceReconcileOperation = true →
      HandleAnnotationsAndGeneration c exec =
        (hagNormalize exec, [Eff.statusWrite (hagNormalize exec).status], none)) ∧
    (HasOperation exec.meta ReconcileOperation = true →
      c.updateExecution (removeOpAnn (hagNormalize exec)) = none →
      (HandleAnnotationsAndGeneration c exec).fst.meta.annotations.lookup
          OperationAnnKey = none ∧
      (HandleAnnotationsAndGeneration c exec).snd.snd = none) ∧
    (∀ e2 : Execution, HasOperation e2.meta ForceReconcileOperation = true →
      c.patchExecution (removeOpAnn e2) e2 = none →
      (removeForceReconcileAnn c e2).fst.meta.annotations.lookup OperationAnnKey =
        none) := by
  rw [hag_triggered c exec htrig hw]
  refine ⟨?_, ?_, ?_, ?_⟩
  · by_cases hrec : HasOperation exec.meta ReconcileOperation = true
    · rw [if_pos hrec]
      simp [removeOpAnn, hagNormalize]
    · rw [if_neg hrec]
      simp [hagNormalize]
  · intro hforce
    rw [if_neg (by simp [force_not_reconcile hforce])]
  · intro hrec hupd
    rw [if_pos hrec, hupd]
    refine ⟨?_, rfl⟩
    simp [removeOpAnn, hagNormalize, lookup_filter_ne]
  · intro e2 hforce hpatch
    unfold removeForceReconcileAnn
    rw [if_pos hforce]
    simp only [hpatch]
    simp [removeOpAnn, lookup_filter_ne]

/-- Witness for C4: a reconcile-annotated execution with an outdated generation is
normalized, its status write recorded and its annotation removed; a force-reconcile
annotated execution keeps its annotation through `HandleAnnotationsAndGeneration`, and
`removeForceReconcileAnn` removes it. -/
theorem handle_annotations_normalization_witness :
    ((HandleAnnotationsAndGeneration collabOK wExecRec).fst.status.observedGeneration =
        wExecRec.meta.generation ∧
      (HandleAnnotationsAndGeneration collabOK wExecRec).fst.status.phase = Phase.Init ∧
      Eff.statusWrite (hagNormalize wExecRec).status ∈
        (HandleAnnotationsAndGeneration collabOK wExecRec).snd.fst) ∧
    ((HandleAnnotationsAndGeneration collabOK wExecRec).fst.meta.annotations.lookup
        OperationAnnKey = none ∧
      (HandleAnnotationsAndGeneration collabOK wExecRec).snd.snd = none) ∧
    HandleAnnotationsAndGeneration collabOK wExecForce =
      (hagNormalize wExecForce, [Eff.statusWrite (hagNormalize wExecForce).status],
        none) ∧
    (removeForceReconcileAnn collabOK wExecForce).fst.meta.annotations.lookup
      OperationAnnKey = none := by
  have h1 := handle_annotations_normalization collabOK wExecRec (by decide) rfl
  have h2 := handle_annotations_normalization collabOK wExecForce (by decide) rfl
  exact ⟨h1.1, h1.2.2.1 (by decide) rfl, h2.2.1 (by decide),
    h2.2.2.2 wExecForce (by decide) rfl⟩

lemma handleError_fst (c : Collab) (now : Nat) (err : Option LsError)
    (oldExec exec : Execution) :
    (handleError c now err oldExec exec false).fst =
      { exec with status := handleErrorStatus exec.status err now } := by
  unfold handleError
  rw [if_neg (by simp)]
  dsimp only
  split
  · rfl
  · split <;> rfl

/-- C5: in `handleError` with the five-minute threshold, no error and no previously
recorded `LastError` leave the phase exactly as the main reconcile produced it; an error
is merged into `Status.LastError`, and the phase escalates to `Failed` precisely when the
merged error has persisted past the threshold, while a younger error leaves the prior
phase unchanged. -/
theorem handle_error_backoff (c : Collab) (now : Nat) (oldExec exec : Execution)
    (e : LsError) :
    (exec.status.lastError = none →
      (handleError c now none oldExec exec false).fst.status.phase =
        exec.status.phase) ∧
    ((handleError c now (some e) oldExec exec false).fst.status.lastError =
      some (TryUpdateLsError exec.status.lastError e now)) ∧
    (now - (TryUpdateLsError exec.status.lastError e now).firstUpdateTime ≤
        fiveMinutes →
      (handleError c now (some e) oldExec exec false).fst.status.phase =
        exec.status.phase) ∧
    (fiveMinutes < now - (TryUpdateLsError exec.status.lastError e now).firstUpdateTime →
      (handleError c now (some e) oldExec exec false).fst.status.phase = Phase.Failed) := by
  refine ⟨?_, ?_, ?_, ?_⟩
  · intro hle
    rw [handleError_fst]
    simp [handleErrorStatus, GetPhaseForLastError, hle]
  · rw [handleError_fst]
    simp [handleErrorStatus, GetPhaseForLastError]
  · intro h
    rw [handleError_fst]
    simp [handleErrorStatus, GetPhaseForLastError, if_neg (Nat.not_lt.mpr h)]
  · intro h
    rw [handleError_fst]
    simp [handleErrorStatus, GetPhaseForLastError, if_pos h]

/-- Witness for C5: with no error and none recorded the progressing phase stands; a fresh
error is merged and, being younger than five minutes, leaves the phase unchanged; the
same error re-observed 301 seconds after its first observation flips the phase to
`Failed`. -/
theorem handle_error_backoff_witness :
    (handleError collabOK 10 none wExec5a wExec5a false).fst.status.phase =
      wExec5a.status.phase ∧
    (handleError collabOK 10 (some wErr5) wExec5a wExec5a false).fst.status.lastError =
      some (TryUpdateLsError wExec5a.status.lastError wErr5 10) ∧
    (handleError collabOK 10 (some wErr5) wExec5a wExec5a false).fst.status.phase =
      wExec5a.status.phase ∧
    (handleError collabOK 301 (some wErr5) wExec5b wExec5b false).fst.status.phase =
      Phase.Failed := by
  refine ⟨(handle_error_backoff collabOK 10 wExec5a wExec5a wErr5).1 rfl,
    (handle_error_backoff collabOK 10 wExec5a wExec5a wErr5).2.1,
    (handle_error_backoff collabOK 10 wExec5a wExec5a wErr5).2.2.1 (by decide),
    (handle_error_backoff collabOK 301 wExec5b wExec5b wErr5).2.2.2 (by decide)⟩

lemma rfra_skip (c : Collab) (exec : Execution)
    (hforce : HasOperation exec.meta ForceReconcileOperation = false) :
    removeForceReconcileAnn c exec = (exec, [], none) := by
  simp [removeForceReconcileAnn, hforce]

lemma ensure_fast_path (c : Collab) (exec : Execution)
    (hann : exec.meta.annotations = [])
    (hgen : exec.status.observedGeneration = exec.meta.generation)
    (hdel : exec.meta.hasDeletionTimestamp = false)
    (hfin : hasLandscaperFinalizer exec.meta = true)
    (hph : exec.status.phase = Phase.Completed)
    (hdic : c.deployItemChanges exec = (exec, none)) :
    Ensure c exec = (exec, [Eff.callDeployItemChanges], none) := by
  have hrec : HasOperation exec.meta ReconcileOperation = false := by
    simp [HasOperation, hann]
  have hforce : HasOperation exec.meta ForceReconcileOperation = false := by
    simp [HasOperation, hann]
  unfold Ensure
  rw [hag_skip c exec hrec hforce hgen]
  simp [ensureRest, hdel, hfin, hph, hdic, IsCompletedExecutionPhase,
    show (Phase.Completed == Phase.Completed) = true from rfl]

lemma handleError_clean (c : Collab) (now : Nat) (exec : Execution)
    (hle : exec.status.lastError = none) :
    handleError c now none exec exec false = (exec, [], none) := by
  unfold handleError
  rw [if_neg (by simp)]
  dsimp only
  have hgp : GetPhaseForLastError exec.status.phase exec.status.lastError fiveMinutes now
      = exec.status.phase := by rw [hle]; rfl
  have hst : handleErrorStatus exec.status none now = exec.status := by
    show ({ exec.status with
      phase := GetPhaseForLastError exec.status.phase exec.status.lastError fiveMinutes
        now } : ExecStatus) = exec.status
    rw [hgp]
  rw [hst]
  simp [hle]

/-- C6, amended: invoking the controller's `Reconcile` on a completed execution with a
current generation, no annotations, no deletion marker, its finalizer present, no
recorded `LastError`, and deploy items reporting no change, performs no write and emits
no event — only the deploy-item change check runs — and leaves the execution unchanged,
so a second invocation behaves identically. The `LastError = nil` condition is necessary:
with a recorded `LastError` the warning event is re-emitted on every invocation. -/
theorem reconcile_idempotence_amended (c : Collab) (now now2 : Nat) (exec : Execution)
    (hann : exec.meta.annotations = [])
    (hgen : exec.status.observedGeneration = exec.meta.generation)
    (hdel : exec.meta.hasDeletionTimestamp = false)
    (hfin : hasLandscaperFinalizer exec.meta = true)
    (hph : exec.status.phase = Phase.Completed)
    (hle : exec.status.lastError = none)
    (hdic : c.deployItemChanges exec = (exec, none)) :
    ControllerReconcile c now exec = (exec, [Eff.callDeployItemChanges], none) ∧
    ControllerReconcile c now2 (ControllerReconcile c now exec).fst =
      (exec, [Eff.callDeployItemChanges], none) := by
  have hforce : HasOperation exec.meta ForceReconcileOperation = false := by
    simp [HasOperation, hann]
  have key : ∀ n : Nat,
      ControllerReconcile c n exec = (exec, [Eff.callDeployItemChanges], none) := by
    intro n
    unfold ControllerReconcile
    rw [if_neg (by simp [HasIgnoreAnn, hann])]
    simp only [ensure_fast_path c exec hann hgen hdel hfin hph hdic,
      rfra_skip c exec hforce, hdel, handleError_clean c n exec hle]
    simp
  refine ⟨key now, ?_⟩
  rw [key now]
  exact key now2

/-- Witness for C6 (amended): the concrete completed execution `wExec6` is a fixed point
of two successive invocations, each leaving only the deploy-item check in the trace. -/
theorem reconcile_idempotence_amended_witness :
    ControllerReconcile collabOK 10 wExec6 = (wExec6, [Eff.callDeployItemChanges], none) ∧
    ControllerReconcile collabOK 11 (ControllerReconcile collabOK 10 wExec6).fst =
      (wExec6, [Eff.callDeployItemChanges], none) :=
  reconcile_idempotence_amended collabOK 10 11 wExec6 rfl rfl rfl (by decide) rfl rfl rfl

/-- Counterexample to C6: the completed execution `wExecStale` carries a recorded
`LastError` and nothing else to do; an invocation leaves it entirely unchanged, yet the
warning event is emitted again — so a second invocation with no intervening change does
emit a new event, contrary to the claim. -/
theorem reconcile_idempotence_counterexample :
    (ControllerReconcile collabOK 10 wExecStale).fst = wExecStale ∧
    Eff.event "Rsn" "Msg" ∈ (ControllerReconcile collabOK 10 wExecStale).snd.fst ∧
    (∀ s, Eff.statusWrite s ∉ (ControllerReconcile collabOK 10 wExecStale).snd.fst) := by
  refine ⟨by decide, by decide, ?_⟩
  intro s
  have : (ControllerReconcile collabOK 10 wExecStale).snd.fst =
      [Eff.callDeployItemChanges, Eff.event "Rsn" "Msg"] := by decide
  rw [this]
  simp

lemma hag_cases (c : Collab) (exec : Execution) :
    HandleAnnotationsAndGeneration c exec = (exec, [], none) ∨
    (∃ r, HandleAnnotationsAndGeneration c exec =
      (hagNormalize exec, [Eff.statusWrite (hagNormalize exec).status], r)) ∨
    (∃ r, HandleAnnotationsAndGeneration c exec =
      (removeOpAnn (hagNormalize exec),
        [Eff.statusWrite (hagNormalize exec).status,
          Eff.execWrite (removeOpAnn (hagNormalize exec)).meta], r)) := by
  unfold HandleAnnotationsAndGeneration
  dsimp only
  by_cases hcond : (HasOperation exec.meta ReconcileOperation
      || HasOperation exec.meta ForceReconcileOperation
      || exec.status.observedGeneration != exec.meta.generation) = true
  · rw [if_pos hcond]
    cases hw : c.updateExecutionStatus (hagNormalize exec) with
    | some e =>
      dsimp only
      right; left
      exact ⟨_, rfl⟩
    | none =>
      dsimp only
      by_cases hrec : HasOperation exec.meta ReconcileOperation = true
      · rw [if_pos hrec]
        cases hupd : c.updateExecution (removeOpAnn (hagNormalize exec)) with
        | some e => right; right; exact ⟨_, rfl⟩
        | none => right; right; exact ⟨_, rfl⟩
      · rw [if_neg hrec]
        right; left
        exact ⟨_, rfl⟩
  · rw [if_neg hcond]
    dsimp only
    have hrec : ¬ HasOperation exec.meta ReconcileOperation = true := by
      intro h
      exact hcond (by simp [h])
    rw [if_neg hrec]
    left
    rfl

lemma hag_no_calls (c : Collab) (exec : Execution) :
    Eff.callDelete ∉ (HandleAnnotationsAndGeneration c exec).snd.fst ∧
    Eff.callReconcile ∉ (HandleAnnotationsAndGeneration c exec).snd.fst := by
  rcases hag_cases c exec with h | ⟨r, h⟩ | ⟨r, h⟩ <;> rw [h] <;> simp

lemma ensureRest_effs_mono (c : Collab) (exec : Execution) (effs : List Eff) (x : Eff)
    (hx : x ∈ effs) : x ∈ (ensureRest c exec effs).snd.fst := by
  unfold ensureRest
  dsimp only
  repeat' split
  all_goals simp [hx]

lemma hasFin_add (m : ExecMeta) :
    hasLandscaperFinalizer (addLandscaperFinalizer m) = true := by
  simp [hasLandscaperFinalizer, addLandscaperFinalizer]

/-- C9: when annotation handling succeeds on an execution with no deletion timestamp and
without the Landscaper finalizer, `Ensure` adds the finalizer and persists the execution
before any execution-layer work: a failed update aborts with the `AddFinalizer` error and
neither `Delete` nor `Reconcile` is invoked, while a successful update records the write
of the finalizer-carrying metadata before the work continues. -/
theorem ensure_finalizer_first (c : Collab) (exec e1 : Execution) (effs1 : List Eff)
    (s : String)
    (hh : HandleAnnotationsAndGeneration c exec = (e1, effs1, none))
    (hdel : e1.meta.hasDeletionTimestamp = false)
    (hfin : hasLandscaperFinalizer e1.meta = false) :
    (c.updateExecution { e1 with meta := addLandscaperFinalizer e1.meta } = some s →
      Ensure c exec =
        ({ e1 with meta := addLandscaperFinalizer e1.meta },
          effs1 ++ [Eff.execWrite (addLandscaperFinalizer e1.meta)],
          some { operation := "Reconcile", reason := "AddFinalizer", message := s }) ∧
      Eff.callDelete ∉ (Ensure c exec).snd.fst ∧
      Eff.callReconcile ∉ (Ensure c exec).snd.fst) ∧
    (c.updateExecution { e1 with meta := addLandscaperFinalizer e1.meta } = none →
      Eff.execWrite (addLandscaperFinalizer e1.meta) ∈ (Ensure c exec).snd.fst ∧
      hasLandscaperFinalizer (addLandscaperFinalizer e1.meta) = true) := by
  have hnc := hag_no_calls c exec
  rw [hh] at hnc
  simp only at hnc
  have hub : Ensure c exec =
      match c.updateExecution { e1 with meta := addLandscaperFinalizer e1.meta } with
      | some err =>
        ({ e1 with meta := addLandscaperFinalizer e1.meta },
          effs1 ++ [Eff.execWrite (addLandscaperFinalizer e1.meta)],
          some { operation := "Reconcile", reason := "AddFinalizer", message := err })
      | none =>
        ensureRest c { e1 with meta := addLandscaperFinalizer e1.meta }
          (effs1 ++ [Eff.execWrite (addLandscaperFinalizer e1.meta)]) := by
    unfold Ensure
    rw [hh]
    dsimp only
    rw [hdel, hfin]
    rfl
  constructor
  · intro hupd
    rw [hub, hupd]
    refine ⟨rfl, ?_, ?_⟩
    · simp [hnc.1]
    · simp [hnc.2]
  · intro hupd
    rw [hub, hupd]
    exact ⟨ensureRest_effs_mono c _ _ _ (by simp), hasFin_add e1.meta⟩

/-- Witness for C9: on the finalizer-less execution `wExec9`, a failing metadata update
makes `Ensure` return the `AddFinalizer` error with no execution-layer call recorded,
and a succeeding update records the write of the finalizer-carrying metadata. -/
theorem ensure_finalizer_first_witness :
    (Ensure collabFailUpd wExec9 =
      ({ wExec9 with meta := addLandscaperFinalizer wExec9.meta },
        [Eff.execWrite (addLandscaperFinalizer wExec9.meta)],
        some { operation := "Reconcile", reason := "AddFinalizer",
               message := "upd-fail" }) ∧
      Eff.callDelete ∉ (Ensure collabFailUpd wExec9).snd.fst ∧
      Eff.callReconcile ∉ (Ensure collabFailUpd wExec9).snd.fst) ∧
    (Eff.execWrite (addLandscaperFinalizer wExec9.meta) ∈
        (Ensure collabOK wExec9).snd.fst ∧
      hasLandscaperFinalizer (addLandscaperFinalizer wExec9.meta) = true) := by
  refine ⟨(ensure_finalizer_first collabFailUpd wExec9 wExec9 [] "upd-fail" ?_ rfl
      rfl).1 rfl,
    (ensure_finalizer_first collabOK wExec9 wExec9 [] "" ?_ rfl rfl).2 rfl⟩
  · exact hag_skip collabFailUpd wExec9 (by decide) (by decide) rfl
  · exact hag_skip collabOK wExec9 (by decide) (by decide) rfl

/-- C10: the result of `handleError` carries the merged status, and its returned error
is the failed status write's error whenever the changed status cannot be written —
displacing the invocation's own error, which stays visible through the merged
`Status.LastError` and its warning event — while a successful or skipped write returns
the invocation's error itself. -/
theorem handle_error_write_failure (c : Collab) (now : Nat) (err : Option LsError)
    (oldExec exec : Execution) (s : String) :
    ((handleError c now err oldExec exec false).fst.status =
      handleErrorStatus exec.status err now) ∧
    (handleErrorStatus exec.status err now ≠ oldExec.status →
      c.updateExecutionStatus
          { exec with status := handleErrorStatus exec.status err now } = some s →
      (handleError c now err oldExec exec false).snd.snd = some (RetErr.client s)) ∧
    (handleErrorStatus exec.status err now ≠ oldExec.status →
      c.updateExecutionStatus
          { exec with status := handleErrorStatus exec.status err now } = none →
      (handleError c now err oldExec exec false).snd.snd = err.map RetErr.ls) ∧
    (handleErrorStatus exec.status err now = oldExec.status →
      (handleError c now err oldExec exec false).snd.snd = err.map RetErr.ls) ∧
    (∀ le, (handleErrorStatus exec.status err now).lastError = some le →
      Eff.event le.reason le.message ∈ (handleError c now err oldExec exec false).snd.fst) := by
  refine ⟨by rw [handleError_fst], ?_, ?_, ?_, ?_⟩
  · intro hne hupd
    unfold handleError
    rw [if_neg (by simp)]
    dsimp only
    rw [if_neg hne, hupd]
  · intro hne hupd
    unfold handleError
    rw [if_neg (by simp)]
    dsimp only
    rw [if_neg hne, hupd]
  · intro hsame
    unfold handleError
    rw [if_neg (by simp)]
    dsimp only
    rw [if_pos hsame]
  · intro le hle
    unfold handleError
    rw [if_neg (by simp)]
    dsimp only
    rw [hle]
    split
    · simp
    · split <;> simp

/-- Witness for C10: with a changed status and a failing status write the client error
is returned in place of the reconcile error `wErr5`, which stays visible through the
emitted warning event; with a successful write, or with no change to write, the
invocation's own error (or nothing) is returned. -/
theorem handle_error_write_failure_witness :
    (handleError collabFailStatus 5 (some wErr5) wExec10 wExec10 false).snd.snd =
      some (RetErr.client "status-fail") ∧
    (handleError collabOK 5 (some wErr5) wExec10 wExec10 false).snd.snd =
      some (RetErr.ls wErr5) ∧
    (handleError collabOK 5 none wExec10 wExec10 false).snd.snd = none ∧
    Eff.event "Rsn" "Msg" ∈
      (handleError collabFailStatus 5 (some wErr5) wExec10 wExec10 false).snd.fst := by
  have h1 := handle_error_write_failure collabFailStatus 5 (some wErr5) wExec10 wExec10
    "status-fail"
  have h2 := handle_error_write_failure collabOK 5 (some wErr5) wExec10 wExec10 ""
  have h3 := handle_error_write_failure collabOK 5 none wExec10 wExec10 ""
  exact ⟨h1.2.1 (by decide) rfl, h2.2.2.1 (by decide) rfl, h3.2.2.2.1 (by decide),
    h1.2.2.2.2 (⟨"Op", "Rsn", "Msg", 5, 5⟩ : StatusError) (by decide)⟩

/-- C7, amended: for the installation whose execution produced `val-exec` under declared
export key `root.y` and whose completed sibling `b` produced `val-b` under declared
export key `root.z`, `Construct` returns exactly the two DataObjects
`{root.y: val-exec, root.z: val-b}`; both carry the same
`SourceType = ExportDataObjectSourceType` — the producing sibling is identified by
`SourceRef` pointing at `b`, not by a distinct source type. -/
theorem construct_scenario_amended :
    Construct constructEnv7 ["root.y", "root.z"] =
      Except.ok
        [{ key := "root.y", data := "val-exec",
           sourceType := ExportDataObjectSourceType, sourceRef := none },
         { key := "root.z", data := "val-b",
           sourceType := ExportDataObjectSourceType,
           sourceRef := some { name := "b", nspace := "test" } }] := rfl

/-- Counterexample to C7: the claim requires the sibling-produced object for `root.z` to
carry a source type (`InstallationExport`) distinct from the execution-produced object's
source type; on the claim's own scenario both objects carry the identical
`ExportDataObjectSourceType` (as the repository's constructor tests assert), so the
claimed per-producer `SourceType` attribution does not exist. -/
theorem construct_source_type_counterexample :
    (Construct constructEnv7 ["root.y", "root.z"]).map
        (fun l => l.map (fun o => o.sourceType)) =
      Except.ok [ExportDataObjectSourceType, ExportDataObjectSourceType] := rfl
